import Mathlib

/-!
Verification development for the dsas-cca-backend caching proxy.

The definitions below are a shallow embedding of the repository's core:
the session/cookie authentication and retry state machine
(`engage-api/get-activity.ts`) and the cache freshness / reconciliation
engine (`services/cache-manager.ts`, `services/s3-service.ts`,
`services/redis-service.ts`, `index.ts`).  Network calls, the clock and
the Redis/S3 stores are modelled as explicit parameters (oracles /
state values); JavaScript truthiness of string fields is modelled by
`Option String` together with an explicit non-emptiness test where the
source tests truthiness of a possibly-empty string.
-/

namespace Dsas

/-! ## String primitives

Executable models of the JavaScript string operations the source uses
(`startsWith`, `endsWith`, `substring`/`drop`, `trim`, single-character
`split`, `length`), defined by structural recursion over the
character list so that concrete runs reduce inside the kernel. -/

def strStartsWith (s p : String) : Bool := p.data.isPrefixOf s.data

def strEndsWith (s p : String) : Bool := p.data.isSuffixOf s.data

/-- JavaScript `s.substring(n)` / Lean `String.drop`. -/
def strDrop (s : String) (n : Nat) : String := ⟨s.data.drop n⟩

def strDropRight (s : String) (n : Nat) : String := ⟨s.data.take (s.data.length - n)⟩

def strLength (s : String) : Nat := s.data.length

/-- JavaScript `s.trim()`: strip whitespace from both ends. -/
def strTrim (s : String) : String :=
  ⟨((s.data.dropWhile Char.isWhitespace).reverse.dropWhile Char.isWhitespace).reverse⟩

/-- JavaScript `s.split(sep)` for a one-character separator, on
character lists; always returns at least one piece. -/
def splitCharList (sep : Char) : List Char → List (List Char)
  | [] => [[]]
  | c :: rest =>
    let acc := splitCharList sep rest
    if c = sep then [] :: acc
    else
      match acc with
      | [] => [[c]]
      | a :: as => (c :: a) :: as

/-- JavaScript `s.split(sep)` for a one-character separator. -/
def strSplitOnChar (sep : Char) (s : String) : List String :=
  (splitCharList sep s.data).map (fun l => ⟨l⟩)

/-! ## Fetch client: `getActivityDetailsRaw` (engage-api/get-activity.ts)

One upstream HTTP attempt can end in five observably different ways:

* `ok raw isErr` — a 2xx response whose body parses, whose outer `d`
  field is a string and whose inner payload parses; `isErr` is the
  truthiness of the inner `isError` flag;
* `badShape` — a 2xx response whose outer object has no string `d`
  field (the code only logs and lets the loop continue, with no delay);
* `parseError` — a 2xx response whose body is not valid JSON
  (`JSON.parse` throws; the error has no `response` attached);
* `httpError s` — axios rejected with a response of HTTP status `s`;
* `netError` — axios rejected with no response (network error /
  timeout).
-/

inductive UpstreamOutcome where
  | ok (raw : String) (isErr : Bool)
  | badShape
  | parseError
  | httpError (status : Nat)
  | netError
deriving DecidableEq

/-- Result of one call to `getActivityDetailsRaw`:
`payload raw` — the raw response text is returned;
`empty` — the inner payload had `isError: true`, the function returns
`null`; `exhausted` — the `for` loop ran out of attempts without a
thrown error (only reachable through `badShape` responses) and the
function returns `null`; `authError s` — `AuthenticationError` with
HTTP status `s` was thrown; `raised` — a transient error was re-raised
after the last attempt. -/
inductive FetchResult where
  | payload (raw : String)
  | empty
  | exhausted
  | authError (status : Nat)
  | raised
deriving DecidableEq

/-- `error.response.status >= 400 && error.response.status < 500`
(get-activity.ts line 506). -/
def is4xx (s : Nat) : Bool := 400 ≤ s && s < 500

/-- A failed attempt that the retry loop retries (network error, parse
error, or an HTTP error outside the 4xx range). -/
def retryableOutcome : UpstreamOutcome → Bool
  | .netError => true
  | .parseError => true
  | .httpError s => !is4xx s
  | _ => false

/-- The body of the `for (let attempt = 0; attempt < maxRetries; attempt++)`
loop of `getActivityDetailsRaw` (get-activity.ts lines 486-521),
written as structural recursion on the number of remaining loop
iterations (`fuel`, initially `maxRetries`, so that
`attempt + fuel = maxRetries` throughout).  Besides the result it
returns the list of back-off delays (in milliseconds) performed by
`setTimeout(resolve, 1000 * (attempt + 1))`, in order. -/
def getActivityDetailsRawGo (outcomes : Nat → UpstreamOutcome)
    (maxRetries attempt fuel : Nat) : FetchResult × List Nat :=
  match fuel with
  | 0 => (.exhausted, [])
  | fuel + 1 =>
    match outcomes attempt with
    | .ok raw isErr => if isErr then (.empty, []) else (.payload raw, [])
    | .badShape => getActivityDetailsRawGo outcomes maxRetries (attempt + 1) fuel
    | .httpError s =>
      if is4xx s then (.authError s, [])
      else if attempt = maxRetries - 1 then (.raised, [])
      else
        let rest := getActivityDetailsRawGo outcomes maxRetries (attempt + 1) fuel
        (rest.1, 1000 * (attempt + 1) :: rest.2)
    | .parseError =>
      if attempt = maxRetries - 1 then (.raised, [])
      else
        let rest := getActivityDetailsRawGo outcomes maxRetries (attempt + 1) fuel
        (rest.1, 1000 * (attempt + 1) :: rest.2)
    | .netError =>
      if attempt = maxRetries - 1 then (.raised, [])
      else
        let rest := getActivityDetailsRawGo outcomes maxRetries (attempt + 1) fuel
        (rest.1, 1000 * (attempt + 1) :: rest.2)

/-- `getActivityDetailsRaw(activityId, cookies, maxRetries = 3, ...)`
(get-activity.ts lines 469-523), as a function of the per-attempt
upstream outcomes. -/
def getActivityDetailsRaw (outcomes : Nat → UpstreamOutcome)
    (maxRetries : Nat) : FetchResult × List Nat :=
  getActivityDetailsRawGo outcomes maxRetries 0 maxRetries

/-! ## Credential store (get-activity.ts lines 283-335)

`_inMemoryCookie` together with the cookie cache file.  `none` means
the in-memory holder is `null` / the file does not exist; `some ""`
models an existing but empty value (falsy in JavaScript). -/

structure CookieStore where
  mem : Option String
  file : Option String
deriving DecidableEq

/-- The part of `loadCachedCookie` that reads the file after the
in-memory holder missed: a truthy file content is copied into the
in-memory holder, anything else yields `null`. -/
def loadCookieFromFile (st : CookieStore) : Option String × CookieStore :=
  match st.file with
  | some f => if f ≠ "" then (some f, { st with mem := some f }) else (none, st)
  | none => (none, st)

/-- `loadCachedCookie()` (get-activity.ts lines 287-307). -/
def loadCachedCookie (st : CookieStore) : Option String × CookieStore :=
  match st.mem with
  | some c => if c ≠ "" then (some c, st) else loadCookieFromFile st
  | none => loadCookieFromFile st

/-- `saveCookieToCache(cookieString)` (lines 309-321): aborts on a
falsy cookie, otherwise writes both the in-memory holder and the file. -/
def saveCookieToCache (st : CookieStore) (c : String) : CookieStore :=
  if c = "" then st else ⟨some c, some c⟩

/-- `clearCookieCache()` (lines 323-335): empties both locations. -/
def clearCookieCache (_st : CookieStore) : CookieStore := ⟨none, none⟩

/-! ## Fetch orchestrator: `fetchActivityData` (get-activity.ts lines 534-610)

The network is abstracted by a `FetchEnv`: the result of
`testCookieValidity` on the cached cookie, the results of the at most
two `getCompleteCookies` login calls (`none` models a thrown login
error) and the results of the at most two `getActivityDetailsRaw`
calls.  The orchestrator's result is an `Except`: an `.error` value
would mean an exception escaping to the caller. -/

inductive FetchErr where
  | auth (status : Nat)
  | transient
deriving DecidableEq

/-- How one `getActivityDetailsRaw` call behaves from the caller's
point of view: `payload`/`empty`/`exhausted` return a value (the
parsed payload or `null`), `authError`/`raised` throw. -/
def runFetch : FetchResult → Except FetchErr (Option String)
  | .payload raw => .ok (some raw)
  | .empty => .ok none
  | .exhausted => .ok none
  | .authError s => .error (.auth s)
  | .raised => .error .transient

structure FetchEnv where
  probeValid : Bool
  login1 : Option String
  fetch1 : FetchResult
  login2 : Option String
  fetch2 : FetchResult
deriving DecidableEq

/-- The catch-handler of the first fetch attempt (lines 583-609): on
`AuthenticationError` the store is cleared and one re-login + re-fetch
cycle is attempted inside its own try/catch; every failure there is
caught and collapsed to `null`. -/
def retryAfterAuth (env : FetchEnv) (st : CookieStore) :
    Except FetchErr (Option String) × CookieStore :=
  let st1 := clearCookieCache st
  match env.login2 with
  | none => (.ok none, st1)
  | some c2 =>
    let st2 := saveCookieToCache st1 c2
    match runFetch env.fetch2 with
    | .ok v => (.ok v, st2)
    | .error _ => (.ok none, st2)

/-- The `try { getActivityDetailsRaw ... } catch` block of
`fetchActivityData` (lines 575-609). -/
def mainFetch (env : FetchEnv) (st : CookieStore) :
    Except FetchErr (Option String) × CookieStore :=
  match runFetch env.fetch1 with
  | .ok v => (.ok v, st)
  | .error (.auth _) => retryAfterAuth env st
  | .error .transient => (.ok none, st)

/-- Lines 559-573: no usable cookie, so log in; a thrown login error is
caught and `null` returned; on success the cookie is saved and the
fetch proceeds. -/
def loginThenFetch (env : FetchEnv) (st : CookieStore) :
    Except FetchErr (Option String) × CookieStore :=
  match env.login1 with
  | none => (.ok none, st)
  | some c =>
    let st1 := saveCookieToCache st c
    mainFetch env st1

/-- `fetchActivityData(activityId, userName, userPwd, templateFileName,
forceLogin)` (get-activity.ts lines 534-610).  Note that the
`if (forceLogin && currentCookie)` branch of the source is dead code
(`currentCookie` is `null` whenever `forceLogin` is set), so forcing a
login bypasses the cache without clearing it. -/
def fetchActivityData (env : FetchEnv) (st : CookieStore) (forceLogin : Bool) :
    Except FetchErr (Option String) × CookieStore :=
  let l := if forceLogin then (none, st) else loadCachedCookie st
  match l.1 with
  | some _ =>
    if env.probeValid then mainFetch env l.2
    else loginThenFetch env (clearCookieCache l.2)
  | none => loginThenFetch env l.2

/-! ## Login handshake: `getSessionId`, `getMSAUTH`, `getCompleteCookies`
(get-activity.ts lines 383-467), as functions of the `Set-Cookie`
header lists of the two responses. -/

/-- The cookie name tested by `getMSAUTH`: `'.ASPXFORMSAUTH='`. -/
def authKey : String := ".ASPXFORMSAUTH="

/-- `cookie.trim().startsWith('.ASPXFORMSAUTH=')` (line 430). -/
def isAuthCandidate (c : String) : Bool := strStartsWith (strTrim c) authKey

/-- `cookieCandidateParts[0].trim()` where
`cookieCandidateParts = aspxAuthCookies[i].split(';')` (lines 433-435).
A one-character `split` never returns `[]`, matching JavaScript's
`split`, so the `none` case is unreachable. -/
def candidateFirstPart (c : String) : Option String :=
  match strSplitOnChar ';' c with
  | [] => none
  | p :: _ => some (strTrim p)

/-- Line 436: the trimmed first part is longer than the cookie name and
what follows the cookie name (`firstPart.substring('.ASPXFORMSAUTH='.length)`)
is non-empty. -/
def candidateNonEmpty (c : String) : Bool :=
  match candidateFirstPart c with
  | some fp => strLength fp > strLength authKey && strLength (strDrop fp (strLength authKey)) > 0
  | none => false

/-- The `for (let i = aspxAuthCookies.length - 1; i >= 0; i--)` loop of
`getMSAUTH` (lines 432-441), expressed as a scan over the reversed
candidate list: take the first (i.e. positionally last) candidate whose
value part is non-empty and return its trimmed first part. -/
def findAuthValue : List String → Option String
  | [] => none
  | c :: rest =>
    match candidateFirstPart c with
    | some fp =>
      if strLength fp > strLength authKey && strLength (strDrop fp (strLength authKey)) > 0
      then some fp else findAuthValue rest
    | none => findAuthValue rest

/-- `getMSAUTH(...)` (get-activity.ts lines 408-456) restricted to its
cookie-selection logic: `some v` is the returned `.ASPXFORMSAUTH`
fragment, `none` the "No valid .ASPXFORMSAUTH cookie found" failure. -/
def getMSAUTH (setCookies : List String) : Option String :=
  findAuthValue (setCookies.filter isAuthCandidate).reverse

/-- `getSessionId()` (get-activity.ts lines 383-406): find the first
`Set-Cookie` entry starting with `ASP.NET_SessionId=` and return its
first `';'`-separated part (`cookie.split(';')[0] || null`). -/
def getSessionId (setCookies : List String) : Option String :=
  match setCookies.find? (fun c => strStartsWith (strTrim c) "ASP.NET_SessionId=") with
  | some c =>
    match strSplitOnChar ';' c with
    | [] => none
    | p :: _ => if p = "" then none else some p
  | none => none

/-- `getCompleteCookies(...)` (get-activity.ts lines 458-467): `none`
models a thrown login error, `some s` the returned composite cookie
`` `${sessionId}; ${msAuth}` ``. -/
def getCompleteCookies (loginCookies formCookies : List String) : Option String :=
  match getSessionId loginCookies with
  | none => none
  | some sid =>
    match getMSAUTH formCookies with
    | none => none
    | some auth => some (sid ++ "; " ++ auth)

/-! ## Cached activity records

A record stored under an `activity:<id>` Redis key.  Only the fields
the core inspects are distinguished; `extra` lists the names of any
further keys present, so that `Object.keys(record).length` is
`keyCount`.  `lastCheck` is an ISO timestamp string in the source; it
is modelled as the parsed epoch-milliseconds value, with `none`
meaning the key is absent (or its value falsy). -/

structure ActivityRecord where
  photo : Option String := none
  lastCheck : Option Int := none
  error : Option String := none
  source : Option String := none
  extra : List String := []
deriving DecidableEq

/-- `Object.keys(record).length`. -/
def keyCount (r : ActivityRecord) : Nat :=
  (if r.photo.isSome then 1 else 0) + (if r.lastCheck.isSome then 1 else 0) +
    (if r.error.isSome then 1 else 0) + (if r.source.isSome then 1 else 0) +
    r.extra.length

/-- JavaScript truthiness of `record.error` (present and non-empty). -/
def errTruthy (r : ActivityRecord) : Bool :=
  match r.error with
  | some s => s ≠ ""
  | none => false

/-! ## `processAndCacheActivity` (cache-manager.ts lines 258-309) and
`fetchProcessAndStoreActivity` (index.ts lines 92-121)

The I/O of one per-entity job is summarised by a `ProcEvent`:
`fetchEmpty` — `fetchActivityData` returned `null`;
`fetched r s3` — structuring succeeded producing `r`, and `s3` is the
S3 URL if the photo was a data URI that was extracted and uploaded
successfully (`none` covers no data-URI photo, extraction failure and
upload failure alike — in all three cases the photo is left as-is);
`procError` — some step threw. -/

inductive ProcEvent where
  | fetchEmpty
  | fetched (r : ActivityRecord) (s3 : Option String)
  | procError
deriving DecidableEq

/-- The photo-replacement step (cache-manager.ts lines 276-294 /
index.ts lines 104-117): a `data:image...` photo is replaced by the S3
URL when the upload produced one. -/
def applyS3Photo (r : ActivityRecord) (s3 : Option String) : ActivityRecord :=
  match r.photo, s3 with
  | some p, some u => if strStartsWith p "data:image" then { r with photo := some u } else r
  | _, _ => r

/-- `processAndCacheActivity(activityId)` (cache-manager.ts lines
258-309): the record written to the cache.  Every branch stamps
`lastCheck` with the current time (`now`). -/
def processAndCacheActivity (now : Int) (ev : ProcEvent) : ActivityRecord :=
  match ev with
  | .fetchEmpty => { lastCheck := some now, source := some "api-fetch-empty" }
  | .fetched r s3 => { applyS3Photo r s3 with lastCheck := some now }
  | .procError => { lastCheck := some now, error := some "Failed to fetch or process" }

/-- `fetchProcessAndStoreActivity(activityId)` (index.ts lines 92-121):
the record written, or `none` when an exception propagated to the
route handler (which writes nothing). -/
def fetchProcessAndStoreActivity (now : Int) (ev : ProcEvent) : Option ActivityRecord :=
  match ev with
  | .fetchEmpty => some { lastCheck := some now, source := some "api-fetch-empty" }
  | .fetched r s3 => some { applyS3Photo r s3 with lastCheck := some now }
  | .procError => none

/-! ## Bulk population: `initializeClubCache` (cache-manager.ts lines 314-334) -/

/-- The per-id test of `initializeClubCache`:
`!cachedData || Object.keys(cachedData).length === 0 ||
!cachedData.lastCheck || cachedData.error`. -/
def needsPopulate (e : Option ActivityRecord) : Bool :=
  match e with
  | none => true
  | some r => keyCount r == 0 || r.lastCheck.isNone || errTruthy r

/-- `initializeClubCache()`: the list of ids (in
`MIN_ACTIVITY_ID_SCAN..MAX_ACTIVITY_ID_SCAN`) for which a
fetch-and-store job is submitted to the pool. -/
def initializeClubCache (cache : Nat → Option ActivityRecord) (lo hi : Nat) : List Nat :=
  ((List.range (hi + 1 - lo)).map (· + lo)).filter (fun i => needsPopulate (cache i))

/-- The cache after one `initializeClubCache()` pass, where `results i`
is the record `processAndCacheActivity` wrote for a submitted id `i`;
ids without a submitted job keep their entry. -/
def applyPopulate (cache : Nat → Option ActivityRecord)
    (results : Nat → ActivityRecord) (lo hi : Nat) : Nat → Option ActivityRecord :=
  fun i => if i ∈ initializeClubCache cache lo hi then some (results i) else cache i

/-! ## Staleness sweep: `updateStaleClubs` (cache-manager.ts lines 339-367) -/

/-- The per-key decision of `updateStaleClubs`: with a record carrying
a truthy `lastCheck`, refresh iff `(now - lastCheckTime) >
updateIntervalMs || cachedData.error`; otherwise refresh iff the entry
is missing or an empty object. -/
def staleNeedsRefresh (now itv : Int) (e : Option ActivityRecord) : Bool :=
  match e with
  | none => true
  | some r =>
    match r.lastCheck with
    | some t => decide (now - t > itv) || errTruthy r
    | none => keyCount r == 0

/-- `updateStaleClubs()`: the list of scanned keys for which a refresh
job is submitted. -/
def updateStaleClubs (now itv : Int) (cache : String → Option ActivityRecord)
    (keys : List String) : List String :=
  keys.filter (fun k => staleNeedsRefresh now itv (cache k))

/-- The refresh condition as claimed by the specification ("for each
entry whose `lastCheck` exceeds a configured age threshold, or which is
marked errored, or which is missing/empty, submits a refresh job"),
for comparison with `staleNeedsRefresh`. -/
def specNeedsRefresh (now itv : Int) (e : Option ActivityRecord) : Bool :=
  match e with
  | none => true
  | some r =>
    (match r.lastCheck with
     | some t => decide (now - t > itv)
     | none => false) || errTruthy r || keyCount r == 0

/-! ## Staff aggregate: `initializeOrUpdateStaffCache`
(cache-manager.ts lines 373-413) -/

structure StaffRecord where
  lastCheck : Option Int
  entries : List (String × String)
deriving DecidableEq

/-- The `needsUpdate` computation (lines 379-388). -/
def staffNeedsUpdate (force : Bool) (cached : Option StaffRecord) (now itv : Int) : Bool :=
  force ||
    match cached with
    | none => true
    | some r =>
      match r.lastCheck with
      | none => true
      | some t => decide (now - t > itv)

/-- `initializeOrUpdateStaffCache(forceUpdate)` (lines 373-413), as a
function on the stored staff record.  `credsOk` models
`USERNAME && PASSWORD && FIXED_STAFF_ACTIVITY_ID`; `fetchRes` is the
result of `fetchActivityData` followed by `structStaffData`
(`none` = `fetchActivityData` returned `null`). -/
def initializeOrUpdateStaffCache (force credsOk : Bool)
    (cached : Option StaffRecord) (now itv : Int)
    (fetchRes : Option (List (String × String))) : Option StaffRecord :=
  if staffNeedsUpdate force cached now itv && credsOk then
    match fetchRes with
    | some staff => some ⟨some now, staff⟩
    | none =>
      match cached with
      | some r => if r.lastCheck.isSome then some { r with lastCheck := some now } else cached
      | none => cached
  else cached

/-! ## Object store: `constructS3Url` and `cleanupOrphanedS3Images`
(s3-service.ts lines 204-217, 418-469)

`S3_ENDPOINT` and `BUCKET_NAME` are `Option String`s; `none` models an
unset environment variable and `some ""` an empty one (both falsy). -/

/-- One application of `.replace(/\/$/, '')` (drops a single trailing
slash). -/
def dropTrailingSlash (s : String) : String :=
  if strEndsWith s "/" then strDropRight s 1 else s

/-- One application of `.replace(/^\//, '')` (drops a single leading
slash). -/
def dropLeadingSlash (s : String) : String :=
  if strStartsWith s "/" then strDrop s 1 else s

/-- `constructS3Url(objectKey)` (s3-service.ts lines 204-217). -/
def constructS3Url (endpoint bucket : Option String) (objectKey : String) : String :=
  match endpoint, bucket with
  | some e, some b =>
    if e = "" || b = "" then ""
    else
      dropTrailingSlash e ++ "/" ++ dropTrailingSlash (dropLeadingSlash b) ++ "/" ++
        dropLeadingSlash objectKey
  | _, _ => ""

/-- The contribution of one cached record to `referencedS3Urls`
(s3-service.ts lines 427-438): its `photo`, provided it is a string
starting with `'http'`, `S3_ENDPOINT` is truthy and the photo starts
with `S3_ENDPOINT`.  No `error` or `source` field is consulted. -/
def photoReferenced (endpoint : Option String) (r : ActivityRecord) : Option String :=
  match r.photo, endpoint with
  | some p, some e =>
    if strStartsWith p "http" && e ≠ "" && strStartsWith p e then some p else none
  | _, _ => none

/-- The `referencedS3Urls` set (as a list). -/
def referencedS3Urls (endpoint : Option String) (records : List ActivityRecord) : List String :=
  records.filterMap (photoReferenced endpoint)

/-- `cleanupOrphanedS3Images()` (s3-service.ts lines 418-469): the list
of listed object keys submitted to `deleteS3Objects` — those whose
reconstructed public URL is truthy and not in `referencedS3Urls`. -/
def cleanupOrphanedS3Images (endpoint bucket : Option String)
    (records : List ActivityRecord) (s3Keys : List String) : List String :=
  s3Keys.filter (fun k =>
    let u := constructS3Url endpoint bucket k
    u ≠ "" && !(referencedS3Urls endpoint records).contains u)

/-- The referenced set as claimed by the specification ("URLs currently
referenced by any cached, non-error, non-empty-source entity record"),
for comparison with `referencedS3Urls`. -/
def specReferencedUrls (records : List ActivityRecord) : List String :=
  records.filterMap (fun r =>
    if errTruthy r || r.source == some "api-fetch-empty" then none else r.photo)

/-! ## Theorems -/

/-- C9: every entry written to the per-entity activity cache, by any
write path of `processAndCacheActivity` (successful normalization,
confirmed-empty upstream, processing error) and of
`fetchProcessAndStoreActivity` (which writes nothing on a processing
error), carries a `lastCheck` timestamp. -/
theorem activityWrites_always_lastCheck (now : Int) (ev : ProcEvent) :
    (processAndCacheActivity now ev).lastCheck = some now ∧
    ∀ r, fetchProcessAndStoreActivity now ev = some r → r.lastCheck = some now := by
  refine ⟨by cases ev <;> rfl, ?_⟩
  intro r h
  cases ev with
  | fetchEmpty =>
    simp only [fetchProcessAndStoreActivity, Option.some.injEq] at h
    rw [← h]
  | fetched r0 s3 =>
    simp only [fetchProcessAndStoreActivity, Option.some.injEq] at h
    rw [← h]
  | procError => simp [fetchProcessAndStoreActivity] at h

/-- Witness for `activityWrites_always_lastCheck` at a concrete input. -/
theorem activityWrites_always_lastCheck_witness :
    ({ lastCheck := some 0, source := some "api-fetch-empty" } : ActivityRecord).lastCheck
      = some 0 :=
  (activityWrites_always_lastCheck 0 .fetchEmpty).2 _ rfl

/-- C5: `initializeClubCache` submits a fetch-and-store job exactly for
an id whose cache entry is missing, an empty object, lacking
`lastCheck`, or marked errored; consequently an entry that already
carries a valid `lastCheck` and no error marker is left untouched by a
population pass — in particular a second `populateAll()` run on the
resulting cache does not change such an entry's `lastCheck`. -/
theorem initializeClubCache_idempotent :
    (∀ e, needsPopulate e = true ↔
        e = none ∨ ∃ r, e = some r ∧
          (keyCount r = 0 ∨ r.lastCheck = none ∨ errTruthy r = true)) ∧
    ∀ (cache : Nat → Option ActivityRecord) (results : Nat → ActivityRecord)
      (lo hi i : Nat) (r : ActivityRecord) (t : Int),
      cache i = some r → r.lastCheck = some t → errTruthy r = false →
      applyPopulate cache results lo hi i = cache i := by
  constructor
  · intro e
    cases e with
    | none => simp [needsPopulate]
    | some r =>
      simp only [needsPopulate, Bool.or_eq_true, beq_iff_eq, Option.isNone_iff_eq_none,
        Option.some.injEq, reduceCtorEq, false_or]
      constructor
      · intro h
        exact ⟨r, rfl, by tauto⟩
      · rintro ⟨r', hr', h⟩
        cases hr'
        tauto
  · intro cache results lo hi i r t hr hlast herr
    have hnp : needsPopulate (cache i) = false := by
      rw [hr]
      simp only [needsPopulate, herr, hlast, Bool.or_false, Option.isNone_some]
      have : keyCount r ≠ 0 := by
        simp only [keyCount, hlast, Option.isSome_some, if_true]
        omega
      simpa using this
    have hmem : i ∉ initializeClubCache cache lo hi := by
      intro hc
      rw [initializeClubCache, List.mem_filter, hnp] at hc
      exact Bool.false_ne_true hc.2
    simp [applyPopulate, hmem]

/-- Witness for `initializeClubCache_idempotent` at a concrete input:
an entry with a valid `lastCheck` and no error is not re-fetched. -/
theorem initializeClubCache_idempotent_witness :
    applyPopulate (fun _ => some { lastCheck := some 5 }) (fun _ => {}) 0 3 1
      = some { lastCheck := some 5 } :=
  initializeClubCache_idempotent.2 _ _ 0 3 1 _ 5 rfl rfl rfl

/-- The record refuting C6: a cached, non-empty record carrying an
error marker but no `lastCheck`. -/
def c6rec : ActivityRecord := { error := some "Failed to fetch or process" }

/-- C6 counterexample: the staleness sweep leaves a non-empty entry
that is marked errored but lacks `lastCheck` untouched (no refresh job
is submitted for its key), although the claim (`specNeedsRefresh`)
requires every errored entry to be resubmitted. -/
theorem updateStaleClubs_erroredNoLastCheck_notRefreshed :
    updateStaleClubs 0 3600000 (fun _ => some c6rec) ["activity:42"] = [] ∧
    errTruthy c6rec = true ∧ keyCount c6rec ≠ 0 ∧ c6rec.lastCheck = none ∧
    specNeedsRefresh 0 3600000 (some c6rec) = true ∧
    staleNeedsRefresh 0 3600000 (some c6rec) = false := by
  refine ⟨rfl, rfl, by decide, rfl, rfl, rfl⟩

/-- C6 as amended: a scanned key is submitted for refresh iff its entry
carries a truthy `lastCheck` and is stale-or-errored, or its entry
lacks a truthy `lastCheck` and is missing or an empty object.  An
entry with `lastCheck` within the threshold and no error marker is
left untouched, but so is a non-empty entry without `lastCheck`, even
when it is marked errored. -/
theorem updateStaleClubs_refresh_iff (now itv : Int)
    (cache : String → Option ActivityRecord) (keys : List String) (k : String) :
    k ∈ updateStaleClubs now itv cache keys ↔
      k ∈ keys ∧
        ((∃ r t, cache k = some r ∧ r.lastCheck = some t ∧
            (now - t > itv ∨ errTruthy r = true)) ∨
          cache k = none ∨
          (∃ r, cache k = some r ∧ r.lastCheck = none ∧ keyCount r = 0)) := by
  rw [updateStaleClubs, List.mem_filter]
  refine and_congr_right fun _ => ?_
  cases hc : cache k with
  | none => simp [staleNeedsRefresh]
  | some r =>
    cases hl : r.lastCheck with
    | none => simp [staleNeedsRefresh, hl, beq_iff_eq]
    | some t =>
      simp only [staleNeedsRefresh, hl, Bool.or_eq_true, decide_eq_true_eq,
        Option.some.injEq, reduceCtorEq, false_or, or_false]
      constructor
      · intro h
        exact Or.inl ⟨r, t, rfl, hl, h⟩
      · rintro (⟨r', t', hr', ht', h⟩ | ⟨r', hr', hl', _⟩)
        · cases hr'
          rw [hl] at ht'
          cases ht'
          exact h
        · cases hr'
          rw [hl] at hl'
          exact absurd hl' (by simp)

/-- C7: when the staff refresh is due and the upstream fetch yields
absent, a previous staff record carrying `lastCheck` has only its
`lastCheck` overwritten (all other fields unchanged); with no previous
record carrying `lastCheck`, nothing is written and a subsequent
non-forced call finds the refresh due again. -/
theorem staffCache_absentFetch_preservesRecord (force : Bool)
    (cached : Option StaffRecord) (now itv : Int)
    (hneed : staffNeedsUpdate force cached now itv = true) :
    (∀ r t, cached = some r → r.lastCheck = some t →
        initializeOrUpdateStaffCache force true cached now itv none =
          some { r with lastCheck := some now }) ∧
    ((∀ r, cached = some r → r.lastCheck = none) →
        initializeOrUpdateStaffCache force true cached now itv none = cached ∧
        ∀ now2 itv2, staffNeedsUpdate false
          (initializeOrUpdateStaffCache force true cached now itv none) now2 itv2
            = true) := by
  constructor
  · intro r t hr hl
    subst hr
    simp only [initializeOrUpdateStaffCache, hneed, Bool.and_self, if_true]
    simp [hl]
  · intro hnone
    have hres : initializeOrUpdateStaffCache force true cached now itv none = cached := by
      simp only [initializeOrUpdateStaffCache, hneed, Bool.and_self, if_true]
      cases hc : cached with
      | none => rfl
      | some r => simp [hnone r hc]
    refine ⟨hres, fun now2 itv2 => ?_⟩
    rw [hres]
    cases hc : cached with
    | none => rfl
    | some r => simp [staffNeedsUpdate, hnone r hc]

/-- Witness for `staffCache_absentFetch_preservesRecord`: a record with
`lastCheck` gets only that field bumped. -/
theorem staffCache_absentFetch_preservesRecord_witness :
    initializeOrUpdateStaffCache false true (some ⟨some 0, [("a", "b")]⟩) 100 10 none
      = some ⟨some 100, [("a", "b")]⟩ :=
  (staffCache_absentFetch_preservesRecord false (some ⟨some 0, [("a", "b")]⟩) 100 10
    (by decide)).1 _ 0 rfl rfl

/-- Membership in the code's referenced-URL set. -/
theorem contains_referencedS3Urls (endpoint : Option String)
    (records : List ActivityRecord) (u : String) :
    (referencedS3Urls endpoint records).contains u = true ↔
      ∃ r ∈ records, photoReferenced endpoint r = some u := by
  simp [referencedS3Urls, List.contains, List.elem_iff, List.mem_filterMap]

/-- The record refuting C2: a cached record that carries an error
marker yet still has an S3 photo URL. -/
def c2rec : ActivityRecord :=
  { photo := some "http://h/b/files/a.avif", lastCheck := some 0, error := some "boom" }

/-- C2 counterexample: with one cached record that carries an error
marker and whose `photo` is the S3 URL of the single listed object,
`cleanupOrphanedS3Images` deletes nothing — the error-marked record's
photo is counted as referenced — although the claim's referenced set
(`specReferencedUrls`) excludes that record, so the claim requires the
object to be deleted. -/
theorem cleanup_errorRecordPhoto_counterexample :
    cleanupOrphanedS3Images (some "http://h") (some "b") [c2rec] ["files/a.avif"] = [] ∧
    constructS3Url (some "http://h") (some "b") "files/a.avif" = "http://h/b/files/a.avif" ∧
    errTruthy c2rec = true ∧
    specReferencedUrls [c2rec] = [] := by
  refine ⟨?_, ?_, rfl, ?_⟩ <;> decide

/-- C2 as amended: `cleanupOrphanedS3Images` deletes a listed object
iff its reconstructed public URL is non-empty and is not the `photo`
of any cached record whose photo is an `'http'` URL under the
configured S3 endpoint — with no regard to `error` or `source`
markers.  (Records written by this code with an error marker or with
`source: 'api-fetch-empty'` carry no `photo` field, which is the only
reason such records never contribute a referenced URL.) -/
theorem cleanup_orphan_iff (endpoint bucket : Option String)
    (records : List ActivityRecord) (s3Keys : List String) (k : String) :
    k ∈ cleanupOrphanedS3Images endpoint bucket records s3Keys ↔
      k ∈ s3Keys ∧ constructS3Url endpoint bucket k ≠ "" ∧
        ∀ r ∈ records,
          photoReferenced endpoint r ≠ some (constructS3Url endpoint bucket k) := by
  rw [cleanupOrphanedS3Images, List.mem_filter]
  refine and_congr_right fun _ => ?_
  simp only [Bool.and_eq_true, decide_eq_true_eq, Bool.not_eq_true']
  refine and_congr_right fun _ => ?_
  rw [← Bool.not_eq_true, contains_referencedS3Urls]
  push_neg
  rfl

/-- C10: `cleanupOrphanedS3Images` never deletes a listed object whose
reconstructed public URL is the empty string; in particular, when the
S3 endpoint or bucket configuration is unset or empty (so
`constructS3Url` returns `''` for every key), no object is deleted at
all. -/
theorem cleanup_neverDeletesEmptyUrl (endpoint bucket : Option String)
    (records : List ActivityRecord) (s3Keys : List String) :
    (∀ k, constructS3Url endpoint bucket k = "" →
        k ∉ cleanupOrphanedS3Images endpoint bucket records s3Keys) ∧
    ((endpoint = none ∨ endpoint = some "" ∨ bucket = none ∨ bucket = some "") →
        cleanupOrphanedS3Images endpoint bucket records s3Keys = []) := by
  have hnotmem : ∀ k, constructS3Url endpoint bucket k = "" →
      k ∉ cleanupOrphanedS3Images endpoint bucket records s3Keys := by
    intro k hu hk
    rw [cleanupOrphanedS3Images, List.mem_filter] at hk
    have := hk.2
    rw [hu] at this
    simp at this
  refine ⟨hnotmem, fun hcfg => ?_⟩
  have hempty : ∀ k, constructS3Url endpoint bucket k = "" := by
    intro k
    rcases hcfg with h | h | h | h
    · subst h; cases bucket <;> simp [constructS3Url]
    · subst h; cases bucket <;> simp [constructS3Url]
    · subst h; cases endpoint <;> simp [constructS3Url]
    · subst h; cases endpoint <;> simp [constructS3Url]
  rw [cleanupOrphanedS3Images, List.filter_eq_nil_iff]
  intro k _
  rw [hempty k]
  simp

/-- Witness for `cleanup_neverDeletesEmptyUrl`: with no endpoint
configured nothing is deleted. -/
theorem cleanup_neverDeletesEmptyUrl_witness :
    cleanupOrphanedS3Images none (some "b") [] ["files/x.avif"] = [] :=
  (cleanup_neverDeletesEmptyUrl none (some "b") [] ["files/x.avif"]).2 (Or.inl rfl)

/-- A retryable outcome is a network error, a parse error, or an HTTP
error outside the 4xx range. -/
theorem retryableOutcome_cases {o : UpstreamOutcome} (h : retryableOutcome o = true) :
    o = .netError ∨ o = .parseError ∨ ∃ s, o = .httpError s ∧ is4xx s = false := by
  cases o with
  | netError => exact Or.inl rfl
  | parseError => exact Or.inr (Or.inl rfl)
  | httpError s =>
    refine Or.inr (Or.inr ⟨s, rfl, ?_⟩)
    simpa [retryableOutcome] using h
  | ok raw isErr => simp [retryableOutcome] at h
  | badShape => simp [retryableOutcome] at h

/-- One non-final retryable attempt: the loop sleeps
`1000 * (attempt + 1)` ms and moves to the next attempt. -/
theorem go_retry_step (outcomes : Nat → UpstreamOutcome) (a fuel : Nat)
    (hlt : a ≠ 2) (h : retryableOutcome (outcomes a) = true) :
    getActivityDetailsRawGo outcomes 3 a (fuel + 1) =
      ((getActivityDetailsRawGo outcomes 3 (a + 1) fuel).1,
        1000 * (a + 1) :: (getActivityDetailsRawGo outcomes 3 (a + 1) fuel).2) := by
  rcases retryableOutcome_cases h with h1 | h1 | ⟨s, h1, h2⟩
  · simp [getActivityDetailsRawGo, h1, hlt]
  · simp [getActivityDetailsRawGo, h1, hlt]
  · simp [getActivityDetailsRawGo, h1, hlt, h2]

/-- A 4xx response raises `AuthenticationError` at once: no delay, no
further attempts, whatever fuel remains. -/
theorem go_auth_step (outcomes : Nat → UpstreamOutcome) (a fuel : Nat) {s : Nat}
    (h : outcomes a = .httpError s) (h4 : is4xx s = true) :
    getActivityDetailsRawGo outcomes 3 a (fuel + 1) = (.authError s, []) := by
  simp [getActivityDetailsRawGo, h, h4]

/-- A retryable failure on the last attempt (`attempt === maxRetries - 1`)
re-raises the error with no further delay. -/
theorem go_last_raised (outcomes : Nat → UpstreamOutcome) (fuel : Nat)
    (h : retryableOutcome (outcomes 2) = true) :
    getActivityDetailsRawGo outcomes 3 2 (fuel + 1) = (.raised, []) := by
  rcases retryableOutcome_cases h with h1 | h1 | ⟨s, h1, h2⟩
  · simp [getActivityDetailsRawGo, h1]
  · simp [getActivityDetailsRawGo, h1]
  · simp [getActivityDetailsRawGo, h1, h2]

/-- C4: in `getActivityDetailsRaw` with the default budget of 3
attempts, a response with HTTP status in 400-499 raises
`AuthenticationError` carrying that status immediately — consuming no
remaining attempts and adding no back-off delay (the delay list
contains only the delays of the retryable failures before it, the
`n`-th failed attempt having slept `n * 1000` ms) — whereas network
errors and non-4xx failures are retried up to the 3-attempt budget
with those linearly growing delays, the final error being re-raised. -/
theorem getActivityDetailsRaw_authFast_transientRetry (outcomes : Nat → UpstreamOutcome) :
    (∀ k s, k < 3 → (∀ i, i < k → retryableOutcome (outcomes i) = true) →
        outcomes k = .httpError s → is4xx s = true →
        getActivityDetailsRaw outcomes 3 =
          (.authError s, (List.range k).map (fun i => 1000 * (i + 1)))) ∧
    ((∀ i, i < 3 → retryableOutcome (outcomes i) = true) →
        getActivityDetailsRaw outcomes 3 = (.raised, [1000, 2000])) := by
  constructor
  · intro k s hk hprev hks h4
    interval_cases k
    · have h0 : getActivityDetailsRawGo outcomes 3 0 3 = (.authError s, []) :=
        go_auth_step outcomes 0 2 hks h4
      rw [getActivityDetailsRaw, h0]
      rfl
    · have h0 : getActivityDetailsRawGo outcomes 3 0 3 =
          ((getActivityDetailsRawGo outcomes 3 1 2).1,
            1000 * 1 :: (getActivityDetailsRawGo outcomes 3 1 2).2) :=
        go_retry_step outcomes 0 2 (by omega) (hprev 0 (by omega))
      have h1 : getActivityDetailsRawGo outcomes 3 1 2 = (.authError s, []) :=
        go_auth_step outcomes 1 1 hks h4
      rw [getActivityDetailsRaw, h0, h1]
      rfl
    · have h0 : getActivityDetailsRawGo outcomes 3 0 3 =
          ((getActivityDetailsRawGo outcomes 3 1 2).1,
            1000 * 1 :: (getActivityDetailsRawGo outcomes 3 1 2).2) :=
        go_retry_step outcomes 0 2 (by omega) (hprev 0 (by omega))
      have h1 : getActivityDetailsRawGo outcomes 3 1 2 =
          ((getActivityDetailsRawGo outcomes 3 2 1).1,
            1000 * 2 :: (getActivityDetailsRawGo outcomes 3 2 1).2) :=
        go_retry_step outcomes 1 1 (by omega) (hprev 1 (by omega))
      have h2 : getActivityDetailsRawGo outcomes 3 2 1 = (.authError s, []) :=
        go_auth_step outcomes 2 0 hks h4
      rw [getActivityDetailsRaw, h0, h1, h2]
      rfl
  · intro hall
    have h0 : getActivityDetailsRawGo outcomes 3 0 3 =
        ((getActivityDetailsRawGo outcomes 3 1 2).1,
          1000 * 1 :: (getActivityDetailsRawGo outcomes 3 1 2).2) :=
      go_retry_step outcomes 0 2 (by omega) (hall 0 (by omega))
    have h1 : getActivityDetailsRawGo outcomes 3 1 2 =
        ((getActivityDetailsRawGo outcomes 3 2 1).1,
          1000 * 2 :: (getActivityDetailsRawGo outcomes 3 2 1).2) :=
      go_retry_step outcomes 1 1 (by omega) (hall 1 (by omega))
    have h2 : getActivityDetailsRawGo outcomes 3 2 1 = (.raised, []) :=
      go_last_raised outcomes 0 (hall 2 (by omega))
    rw [getActivityDetailsRaw, h0, h1, h2]

/-- Witness for `getActivityDetailsRaw_authFast_transientRetry`: a 401
on the first attempt raises at once, with an empty delay list. -/
theorem getActivityDetailsRaw_authFast_transientRetry_witness :
    getActivityDetailsRaw (fun _ => UpstreamOutcome.httpError 401) 3 =
      (.authError 401, []) :=
  (getActivityDetailsRaw_authFast_transientRetry (fun _ => .httpError 401)).1 0 401
    (by omega) (fun i hi => absurd hi (by omega)) rfl (by decide)

/-- The re-login-and-retry handler never lets an exception escape. -/
theorem retryAfterAuth_isOk (env : FetchEnv) (st : CookieStore) :
    ∃ v, (retryAfterAuth env st).1 = Except.ok v := by
  rw [retryAfterAuth]
  cases env.login2 with
  | none => exact ⟨none, rfl⟩
  | some c2 => cases hf : env.fetch2 <;> simp [runFetch]

/-- The fetch block of the orchestrator never lets an exception escape. -/
theorem mainFetch_isOk (env : FetchEnv) (st : CookieStore) :
    ∃ v, (mainFetch env st).1 = Except.ok v := by
  rw [mainFetch]
  cases h1 : env.fetch1 with
  | payload raw => exact ⟨some raw, rfl⟩
  | empty => exact ⟨none, rfl⟩
  | exhausted => exact ⟨none, rfl⟩
  | authError s => exact retryAfterAuth_isOk env st
  | raised => exact ⟨none, rfl⟩

/-- The login-then-fetch path never lets an exception escape. -/
theorem loginThenFetch_isOk (env : FetchEnv) (st : CookieStore) :
    ∃ v, (loginThenFetch env st).1 = Except.ok v := by
  rw [loginThenFetch]
  cases env.login1 with
  | none => exact ⟨none, rfl⟩
  | some c => exact mainFetch_isOk env _

/-- If both fetch attempts are rejected as authentication errors, the
fetch block returns `null`. -/
theorem mainFetch_authAuth (env : FetchEnv) (st : CookieStore) (s s' : Nat)
    (h1 : env.fetch1 = .authError s) (h2 : env.fetch2 = .authError s') :
    (mainFetch env st).1 = Except.ok none := by
  rw [mainFetch, h1]
  show (retryAfterAuth env st).1 = Except.ok none
  rw [retryAfterAuth]
  cases env.login2 with
  | none => rfl
  | some c2 => rw [h2]; rfl

/-- If the first fetch attempt exhausts its transient retries, the
fetch block returns `null`. -/
theorem mainFetch_raised (env : FetchEnv) (st : CookieStore)
    (h1 : env.fetch1 = .raised) : (mainFetch env st).1 = Except.ok none := by
  rw [mainFetch, h1]
  rfl

/-- C3: `fetchActivityData` never raises an exception to its caller:
its result is always `Except.ok`, and in particular a failed login
when no usable cookie exists (forced, missing, or probe-rejected), an
authentication rejection on both the first fetch and the post-re-login
retry, and transient-retry exhaustion each yield the absent result
(`ok none`) rather than a thrown error. -/
theorem fetchActivityData_neverThrows (env : FetchEnv) (st : CookieStore) (force : Bool) :
    (∃ v, (fetchActivityData env st force).1 = Except.ok v) ∧
    ((force = true ∨ (loadCachedCookie st).1 = none ∨ env.probeValid = false) →
        env.login1 = none → (fetchActivityData env st force).1 = Except.ok none) ∧
    (∀ s s', env.fetch1 = .authError s → env.fetch2 = .authError s' →
        (fetchActivityData env st force).1 = Except.ok none) ∧
    (env.fetch1 = .raised → (fetchActivityData env st force).1 = Except.ok none) := by
  have hok : ∀ st', ∃ v, (mainFetch env st').1 = Except.ok v := mainFetch_isOk env
  have hlogin_none : ∀ st', env.login1 = none →
      (loginThenFetch env st').1 = Except.ok none := by
    intro st' hl
    rw [loginThenFetch, hl]
  have hlogin_auth : ∀ st' s s', env.fetch1 = .authError s → env.fetch2 = .authError s' →
      (loginThenFetch env st').1 = Except.ok none := by
    intro st' s s' h1 h2
    rw [loginThenFetch]
    cases env.login1 with
    | none => rfl
    | some c => exact mainFetch_authAuth env _ s s' h1 h2
  have hlogin_raised : ∀ st', env.fetch1 = .raised →
      (loginThenFetch env st').1 = Except.ok none := by
    intro st' h1
    rw [loginThenFetch]
    cases env.login1 with
    | none => rfl
    | some c => exact mainFetch_raised env _ h1
  cases hforce : force with
  | true =>
    have hshape : fetchActivityData env st true = loginThenFetch env st := rfl
    rw [hshape]
    refine ⟨loginThenFetch_isOk env st, fun _ => hlogin_none st,
      fun s s' h1 h2 => hlogin_auth st s s' h1 h2, hlogin_raised st⟩
  | false =>
    have hshape : fetchActivityData env st false =
        match (loadCachedCookie st).1 with
        | some _ =>
          if env.probeValid then mainFetch env (loadCachedCookie st).2
          else loginThenFetch env (clearCookieCache (loadCachedCookie st).2)
        | none => loginThenFetch env (loadCachedCookie st).2 := rfl
    rw [hshape]
    cases hl : (loadCachedCookie st).1 with
    | none =>
      exact ⟨loginThenFetch_isOk env _, fun _ => hlogin_none _,
        fun s s' h1 h2 => hlogin_auth _ s s' h1 h2, hlogin_raised _⟩
    | some c =>
      cases hp : env.probeValid with
      | true =>
        refine ⟨hok _, ?_, fun s s' h1 h2 => mainFetch_authAuth env _ s s' h1 h2,
          mainFetch_raised env _⟩
        intro hcase _
        rcases hcase with h | h | h <;> exact absurd h (by simp)
      | false =>
        exact ⟨loginThenFetch_isOk env _, fun _ => hlogin_none _,
          fun s s' h1 h2 => hlogin_auth _ s s' h1 h2, hlogin_raised _⟩

/-- Witness for `fetchActivityData_neverThrows`: empty store and a
failing login yield `ok none`. -/
theorem fetchActivityData_neverThrows_witness :
    (fetchActivityData ⟨true, none, .raised, none, .raised⟩ ⟨none, none⟩ false).1
      = Except.ok none :=
  (fetchActivityData_neverThrows ⟨true, none, .raised, none, .raised⟩ ⟨none, none⟩
    false).2.1 (Or.inr (Or.inl rfl)) rfl

/-- The environment of the C1 counterexample: the cached cookie probes
valid, both `getActivityDetailsRaw` calls hit a 401 (and hence raise
`AuthenticationError`, per `getActivityDetailsRawGo`), and the
re-login succeeds with a fresh composite cookie. -/
def c1env : FetchEnv :=
  { probeValid := true
    login1 := none
    fetch1 := (getActivityDetailsRaw (fun _ => .httpError 401) 3).1
    login2 := some "sid; auth"
    fetch2 := (getActivityDetailsRaw (fun _ => .httpError 401) 3).1 }

/-- The store of the C1 counterexample: a cached token in both the
in-memory holder and the file. -/
def c1store : CookieStore := ⟨some "oldCookie", some "oldCookie"⟩

/-- C1 counterexample: cached token probes valid, the fetch hits a 401,
the single re-login succeeds and the retried fetch hits a 401 again —
the call returns absent, but the token store does NOT end empty: it
holds the re-login's token in both locations, because
`fetchActivityData` saves the fresh cookie after clearing and never
clears again when the retry is rejected. -/
theorem fetchActivityData_storeNotEmpty_counterexample :
    (fetchActivityData c1env c1store false).1 = Except.ok none ∧
    (fetchActivityData c1env c1store false).2 = ⟨some "sid; auth", some "sid; auth"⟩ ∧
    (fetchActivityData c1env c1store false).2 ≠ (⟨none, none⟩ : CookieStore) := by
  refine ⟨rfl, rfl, by decide⟩

/-- C1 as amended: when the cached token probes valid, the fetch is
rejected with an authentication error and the single re-login + retry
cycle is also rejected, the call returns absent and the token store
ends holding the re-login's token (in-memory holder and durable file);
the store ends empty only when the re-login itself fails. -/
theorem fetchActivityData_retryRejected_storeState (st : CookieStore) (c c2 : String)
    (s s' : Nat) (l1 : Option String)
    (hc : st.mem = some c) (hc0 : c ≠ "") (hc2 : c2 ≠ "") :
    fetchActivityData ⟨true, l1, .authError s, some c2, .authError s'⟩ st false =
      (Except.ok none, ⟨some c2, some c2⟩) ∧
    fetchActivityData ⟨true, l1, .authError s, none, .authError s'⟩ st false =
      (Except.ok none, ⟨none, none⟩) := by
  have hload : loadCachedCookie st = (some c, st) := by
    rw [loadCachedCookie, hc]
    simp [hc0]
  constructor
  · show (match (if false then (none, st) else loadCachedCookie st).1 with
        | some _ =>
          if (true : Bool) then
            mainFetch ⟨true, l1, .authError s, some c2, .authError s'⟩
              (if false then (none, st) else loadCachedCookie st).2
          else loginThenFetch ⟨true, l1, .authError s, some c2, .authError s'⟩
            (clearCookieCache (if false then (none, st) else loadCachedCookie st).2)
        | none => loginThenFetch ⟨true, l1, .authError s, some c2, .authError s'⟩
            (if false then (none, st) else loadCachedCookie st).2) =
      (Except.ok none, ⟨some c2, some c2⟩)
    simp only [if_false, Bool.false_eq_true, ite_false, hload]
    show (mainFetch ⟨true, l1, .authError s, some c2, .authError s'⟩ st) =
      (Except.ok none, ⟨some c2, some c2⟩)
    rw [mainFetch]
    show (retryAfterAuth ⟨true, l1, .authError s, some c2, .authError s'⟩ st) =
      (Except.ok none, ⟨some c2, some c2⟩)
    rw [retryAfterAuth]
    simp [saveCookieToCache, hc2, runFetch, clearCookieCache]
  · show (match (if false then (none, st) else loadCachedCookie st).1 with
        | some _ =>
          if (true : Bool) then
            mainFetch ⟨true, l1, .authError s, none, .authError s'⟩
              (if false then (none, st) else loadCachedCookie st).2
          else loginThenFetch ⟨true, l1, .authError s, none, .authError s'⟩
            (clearCookieCache (if false then (none, st) else loadCachedCookie st).2)
        | none => loginThenFetch ⟨true, l1, .authError s, none, .authError s'⟩
            (if false then (none, st) else loadCachedCookie st).2) =
      (Except.ok none, ⟨none, none⟩)
    simp only [if_false, Bool.false_eq_true, ite_false, hload]
    show (mainFetch ⟨true, l1, .authError s, none, .authError s'⟩ st) =
      (Except.ok none, ⟨none, none⟩)
    rw [mainFetch]
    show (retryAfterAuth ⟨true, l1, .authError s, none, .authError s'⟩ st) =
      (Except.ok none, ⟨none, none⟩)
    rw [retryAfterAuth]
    rfl

/-- Witness for `fetchActivityData_retryRejected_storeState` at a
concrete input. -/
theorem fetchActivityData_retryRejected_storeState_witness :
    fetchActivityData ⟨true, none, .authError 401, some "newCookie", .authError 401⟩
        ⟨some "old", some "old"⟩ false =
      (Except.ok none, ⟨some "newCookie", some "newCookie"⟩) :=
  (fetchActivityData_retryRejected_storeState ⟨some "old", some "old"⟩ "old" "newCookie"
    401 401 none rfl (by decide) (by decide)).1

/-- A candidate whose value part is non-empty has a first part. -/
theorem candidateNonEmpty_firstPart {c : String} (h : candidateNonEmpty c = true) :
    ∃ fp, candidateFirstPart c = some fp := by
  rw [candidateNonEmpty] at h
  cases hfp : candidateFirstPart c with
  | none => rw [hfp] at h; exact absurd h (by simp)
  | some fp => exact ⟨fp, rfl⟩

/-- The downward loop of `getMSAUTH` is `find?` over the reversed
candidate list followed by extraction of the first part. -/
theorem findAuthValue_eq_find (l : List String) :
    findAuthValue l = (l.find? candidateNonEmpty).bind candidateFirstPart := by
  induction l with
  | nil => rfl
  | cons c rest ih =>
    rw [findAuthValue]
    cases hfp : candidateFirstPart c with
    | none =>
      have hne : candidateNonEmpty c = false := by
        rw [candidateNonEmpty, hfp]
      rw [List.find?_cons_of_neg _ (by simp [hne]), ih]
    | some fp =>
      by_cases hcond : (strLength fp > strLength authKey &&
          strLength (strDrop fp (strLength authKey)) > 0) = true
      · have hpos : candidateNonEmpty c = true := by
          rw [candidateNonEmpty, hfp]
          exact hcond
        rw [List.find?_cons_of_pos _ hpos]
        simp [hcond, hfp]
      · have hne : candidateNonEmpty c = false := by
          rw [candidateNonEmpty, hfp]
          exact Bool.not_eq_true _ ▸ (Bool.of_not_eq_true hcond)
        rw [List.find?_cons_of_neg _ (by simp [hne]), ← ih]
        simp only [Bool.not_eq_true] at hcond
        rw [findAuthValue.eq_def]
        simp [hfp, hcond]

/-- `find?` locates the first element satisfying the predicate: the
list splits into a failing head part, the found element and a tail. -/
theorem find?_eq_some_split {α : Type} {p : α → Bool} {l : List α} {a : α}
    (h : l.find? p = some a) :
    p a = true ∧ ∃ l₁ l₂, l = l₁ ++ a :: l₂ ∧ ∀ x ∈ l₁, p x = false := by
  induction l with
  | nil => simp at h
  | cons b rest ih =>
    by_cases hb : p b = true
    · rw [List.find?_cons_of_pos _ hb] at h
      cases h
      exact ⟨hb, [], rest, rfl, by simp⟩
    · rw [List.find?_cons_of_neg _ (by simpa using hb)] at h
      obtain ⟨hpa, l₁, l₂, hsplit, hall⟩ := ih h
      refine ⟨hpa, b :: l₁, l₂, by rw [hsplit]; rfl, ?_⟩
      intro x hx
      rcases List.mem_cons.mp hx with hxb | hxm
      · subst hxb
        simpa using hb
      · exact hall x hxm

/-- C8: `getMSAUTH` selects, among the `.ASPXFORMSAUTH` candidates of
the form-submission response's `Set-Cookie` list, the positionally
last candidate whose value part is non-empty (every later candidate
fails the non-emptiness test), and fails exactly when no non-empty
candidate exists; and on success `getCompleteCookies` returns the
session-id fragment and the forms-auth fragment concatenated with
`'; '`. -/
theorem getMSAUTH_lastNonEmpty (cs : List String) :
    (getMSAUTH cs =
        ((cs.filter isAuthCandidate).reverse.find? candidateNonEmpty).bind
          candidateFirstPart) ∧
    (getMSAUTH cs = none ↔
        ∀ c ∈ cs.filter isAuthCandidate, candidateNonEmpty c = false) ∧
    (∀ v, getMSAUTH cs = some v →
        ∃ pre c post, cs.filter isAuthCandidate = pre ++ c :: post ∧
          candidateNonEmpty c = true ∧ (∀ d ∈ post, candidateNonEmpty d = false) ∧
          candidateFirstPart c = some v) ∧
    (∀ loginCs sid v, getSessionId loginCs = some sid → getMSAUTH cs = some v →
        getCompleteCookies loginCs cs = some (sid ++ "; " ++ v)) := by
  have heq : getMSAUTH cs =
      ((cs.filter isAuthCandidate).reverse.find? candidateNonEmpty).bind
        candidateFirstPart := findAuthValue_eq_find _
  refine ⟨heq, ?_, ?_, ?_⟩
  · rw [heq]
    constructor
    · intro h c hc
      cases hf : (cs.filter isAuthCandidate).reverse.find? candidateNonEmpty with
      | none =>
        have hforall := List.find?_eq_none.mp hf
        simpa using hforall c (List.mem_reverse.mpr hc)
      | some c' =>
        rw [hf] at h
        have hp' : candidateNonEmpty c' = true := List.find?_some hf
        obtain ⟨fp, hfp⟩ := candidateNonEmpty_firstPart hp'
        rw [Option.bind_eq_none] at h
        have hcontr := h c' rfl
        rw [hfp] at hcontr
        exact absurd hcontr (by simp)
    · intro hall
      have hnone : (cs.filter isAuthCandidate).reverse.find? candidateNonEmpty = none :=
        List.find?_eq_none.mpr fun x hx => by
          simpa using hall x (List.mem_reverse.mp hx)
      rw [hnone]
      rfl
  · intro v hv
    rw [heq] at hv
    cases hf : (cs.filter isAuthCandidate).reverse.find? candidateNonEmpty with
    | none => rw [hf] at hv; exact absurd hv (by simp)
    | some c =>
      rw [hf] at hv
      simp only [Option.some_bind] at hv
      obtain ⟨hp, l₁, l₂, hsplit, hall⟩ := find?_eq_some_split hf
      refine ⟨l₂.reverse, c, l₁.reverse, ?_, hp, ?_, hv⟩
      · have : cs.filter isAuthCandidate = (l₁ ++ c :: l₂).reverse := by
          rw [← hsplit, List.reverse_reverse]
        rw [this]
        simp [List.reverse_append]
      · intro d hd
        exact hall d (List.mem_reverse.mp hd)
  · intro loginCs sid v hsid hv
    rw [getCompleteCookies, hsid, hv]

/-- Witness for `getMSAUTH_lastNonEmpty`: with a re-issued empty
`.ASPXFORMSAUTH` candidate before a real one, login returns the
session id and the last non-empty forms-auth fragment joined by
`'; '`. -/
theorem getMSAUTH_lastNonEmpty_witness :
    getCompleteCookies ["ASP.NET_SessionId=abc; path=/"]
        [".ASPXFORMSAUTH=; path=/", ".ASPXFORMSAUTH=xyz; path=/"] =
      some "ASP.NET_SessionId=abc; .ASPXFORMSAUTH=xyz" :=
  (getMSAUTH_lastNonEmpty [".ASPXFORMSAUTH=; path=/", ".ASPXFORMSAUTH=xyz; path=/"]).2.2.2
    ["ASP.NET_SessionId=abc; path=/"] "ASP.NET_SessionId=abc" ".ASPXFORMSAUTH=xyz"
    (by decide) (by decide)

end Dsas
